import Mathlib

/-!
Shallow embedding of the batched event delivery pipeline of
`dom-logger` (`src/index.ts`, the newer of the two sources; `src/logger.ts`
agrees on every piece of logic the claims touch).  JavaScript runtime
values that can be either a plain string or a structured object are
modelled by `JsValue`; `JSON.stringify` on a structured value is modelled
as fallible (`tryStringify`), since the source itself guards it with a
try/catch in one place.  Asynchronous suspension points are modelled by an
explicit `during` list: the records appended to the live queue while the
flush is awaiting the session-metadata provider or the delivery call.
-/

namespace DomLogger

/-- A JavaScript value in a message/argument position: either a plain
string, or a structured (non-string) value.  `serializable` records
whether `JSON.stringify` succeeds on it (it throws on circular
structures and BigInt); `form` is its serialized form when it does. -/
inductive JsValue where
  | vstr (s : String)
  | vobj (serializable : Bool) (form : String)
deriving DecidableEq, Repr

/-- The closed set of event kinds (`eventType` in the source). -/
inductive EventType where
  | exception | log | error | warn | securitypolicyviolation
deriving DecidableEq, Repr

/-- `eventMeta` contents: either a caller-supplied metadata blob, or the
`{ args }` wrapper the console interceptors attach. -/
inductive MetaVal where
  | userMeta (m : String)
  | argsMeta (args : List JsValue)
deriving DecidableEq, Repr

/-- One queued event record (`LogEventData` in the source). -/
structure LogEventData where
  eventType : EventType
  name : String
  timestamp : Nat
  message : JsValue
  url : String
  lineno : Option Nat := none
  colno : Option Nat := none
  source : Option String := none
  event : Option Unit := none
  stack : Option String := none
  eventMeta : Option MetaVal := none
deriving DecidableEq, Repr

/-- `defaultThrottleTime = 1000 * 20` (index.ts line 34). -/
def defaultThrottleTime : Nat := 1000 * 20

/-- `errorRetryTime = 1000 * 60` (index.ts line 35). -/
def errorRetryTime : Nat := 1000 * 60

/-- `reportWait = 1000 * 3` (index.ts line 37). -/
def reportWait : Nat := 1000 * 3

/-- Ambient browser state the capture paths read (`document.location.href`,
`new Date()`, the `isProduction` flag of logger.ts). -/
structure Env where
  href : String
  now : Nat
  isProduction : Bool
deriving DecidableEq, Repr

/-- Static environment attributes read from `navigator`. -/
structure Navigator where
  appName : String
  appCodeName : String
  platform : String
deriving DecidableEq, Repr

/-- JavaScript `String(v)` as used by `Array.prototype.join`. -/
def jsToString : JsValue → String
  | .vstr s => s
  | .vobj _ _ => "[object Object]"

/-- `args.join(", ")`. -/
def jsJoin (args : List JsValue) : String :=
  String.intercalate ", " (args.map jsToString)

/-- `JSON.stringify(v)` : `none` models a throw. -/
def tryStringify : JsValue → Option String
  | .vstr s => some ("\x22" ++ s ++ "\x22")
  | .vobj true form => some form
  | .vobj false _ => none

/-- Constructor options (`Options` in the source); `none` is an absent
(`undefined`) option. -/
structure Options where
  url : String
  throttleTime : Option Nat := none
  debug : Option Bool := none
  sendErrors : Option Bool := none
  sendInformation : Option Bool := none
  sendWarnings : Option Bool := none
  sendExceptions : Option Bool := none
  sendCSPViolations : Option Bool := none
deriving DecidableEq, Repr

/-- JavaScript truthiness of a `boolean | undefined` value. -/
def truthy (x : Option Bool) : Bool := x.getD false

/-- JavaScript `x || d` on a `boolean | undefined` value. -/
def jsOr (x : Option Bool) (d : Bool) : Bool := if truthy x then true else d

/-- The state established by the constructor: the stored readonly flag
fields, plus which interception hooks were installed
(index.ts lines 69-92). -/
structure LoggerFields where
  url : String
  throttleTime : Nat
  debug : Bool
  sendWarnings : Bool
  sendErrors : Bool
  sendInformation : Bool
  sendExceptions : Bool
  interceptLog : Bool
  interceptWarn : Bool
  interceptError : Bool
  interceptWindowError : Bool
  interceptCsp : Bool
deriving DecidableEq, Repr

/-- The constructor body: `this.sendErrors = sendErrors = sendErrors || true`
and friends, then the conditional installation of the interceptors. -/
def mkLogger (o : Options) : LoggerFields :=
  let throttleTime :=
    match o.throttleTime with
    | some t => if t == 0 then defaultThrottleTime else t
    | none => defaultThrottleTime
  let sendWarnings := jsOr o.sendWarnings false
  let sendInformation := jsOr o.sendInformation false
  let sendErrors := jsOr o.sendErrors true
  let sendExceptions := jsOr o.sendExceptions true
  { url := o.url
    throttleTime := throttleTime
    debug := jsOr o.debug false
    sendWarnings := sendWarnings
    sendErrors := sendErrors
    sendInformation := sendInformation
    sendExceptions := sendExceptions
    interceptLog := sendInformation
    interceptWarn := sendWarnings
    interceptError := sendErrors
    interceptWindowError := sendExceptions
    interceptCsp := truthy o.sendCSPViolations }

/-- Effect of one capture-path invocation on the pipeline: the records
pushed onto the queue, and the delay of the deferred flush trigger when
`report()` was called (`none` when it was not). -/
structure PushEffect where
  pushed : List LogEventData
  reportDelay : Option Nat
deriving DecidableEq, Repr

/-- `logInformation(name, message, eventMeta)` (index.ts lines 94-104). -/
def logInformation (env : Env) (name message : String) (eventMeta : String) :
    PushEffect :=
  { pushed := [{ eventType := .log
                 name := name
                 message := .vstr message
                 url := env.href
                 timestamp := env.now
                 eventMeta := some (.userMeta eventMeta) }]
    reportDelay := some reportWait }

/-- A structured JavaScript `Error` object. -/
structure JsError where
  name : String
  message : String
  stack : Option String
deriving DecidableEq, Repr

/-- `captureError(exception, meta)` (index.ts lines 167-179). -/
def captureError (env : Env) (exception : JsError) (meta : Option String) :
    PushEffect :=
  { pushed := [{ eventType := .exception
                 name := exception.name
                 message := .vstr exception.message
                 url := env.href
                 stack := exception.stack
                 timestamp := env.now
                 eventMeta := meta.map .userMeta }]
    reportDelay := some reportWait }

/-- A `SecurityPolicyViolationEvent`. -/
structure CspEvent where
  blockedURI : String
  documentURI : String
  originalPolicy : String
  referrer : String
  timeStamp : Nat
  sourceFile : String
  violatedDirective : String
  effectiveDirective : String
  lineNumber : Nat
  columnNumber : Nat
  statusCode : Nat
deriving DecidableEq, Repr

/-- The newline-joined `key value` dump built by `handleCspViolation`. -/
def cspMessage (e : CspEvent) : String :=
  "blocked-uri " ++ e.blockedURI ++ "\n" ++
  "document-uri " ++ e.documentURI ++ "\n" ++
  "original-policy " ++ e.originalPolicy ++ "\n" ++
  "referrer " ++ e.referrer ++ "\n" ++
  "timestamp " ++ toString e.timeStamp ++ "\n" ++
  "source-file " ++ e.sourceFile ++ "\n" ++
  "violated-directive " ++ e.violatedDirective ++ "\n" ++
  "effective-directive " ++ e.effectiveDirective ++ "\n" ++
  "line-number " ++ toString e.lineNumber ++ "\n" ++
  "col-number " ++ toString e.columnNumber ++ "\n" ++
  "status-code " ++ toString e.statusCode ++ "\n"

/-- `handleCspViolation(e)` (index.ts lines 181-222): pushes the record;
the source contains no `this.report()` call on this path. -/
def handleCspViolation (env : Env) (e : CspEvent) : PushEffect :=
  { pushed := [{ eventType := .securitypolicyviolation
                 name := "securitypolicyviolation"
                 message := .vstr (cspMessage e)
                 source := some e.sourceFile
                 lineno := some e.lineNumber
                 colno := some e.columnNumber
                 timestamp := e.timeStamp
                 url := env.href }]
    reportDelay := none }

/-- Effect of one intercepted console call: records pushed, deferred
trigger, and `hostResult = some r` when the saved original console method
was applied to the same arguments and its result `r` returned
(`none` when an exception escaped before reaching it). -/
structure InterceptOut (R : Type) where
  pushed : List LogEventData
  reportDelay : Option Nat
  hostResult : Option R

/-- `onLog` (index.ts lines 248-261): `orig` is the saved `console.log`. -/
def onLog {R : Type} (fl : LoggerFields) (env : Env)
    (orig : List JsValue → R) (args : List JsValue) : InterceptOut R :=
  if fl.sendInformation then
    { pushed := [{ eventType := .log
                   name := "console.log"
                   message := .vstr (jsJoin args)
                   url := env.href
                   timestamp := env.now
                   eventMeta := some (.argsMeta args) }]
      reportDelay := some reportWait
      hostResult := some (orig args) }
  else
    { pushed := [], reportDelay := none, hostResult := some (orig args) }

/-- The message computation of `onWarn`:
`args.map(x => typeof x !== "string" ? JSON.stringify(x) : x).join(", ")`.
`none` models the uncaught throw of `JSON.stringify`. -/
def warnMessage (args : List JsValue) : Option String :=
  (args.mapM (fun x =>
    match x with
    | JsValue.vstr s => some s
    | v => tryStringify v)).map (String.intercalate ", ")

/-- `onWarn` (index.ts lines 263-276): when `sendWarnings` is set, the
message is computed before the push; a `JSON.stringify` throw there
escapes `onWarn` before the original `console.warn` is applied. -/
def onWarn {R : Type} (fl : LoggerFields) (env : Env)
    (orig : List JsValue → R) (args : List JsValue) : InterceptOut R :=
  if fl.sendWarnings then
    match warnMessage args with
    | none => { pushed := [], reportDelay := none, hostResult := none }
    | some m =>
      { pushed := [{ eventType := .warn
                     name := "console.warn"
                     message := .vstr m
                     url := env.href
                     timestamp := env.now
                     eventMeta := some (.argsMeta args) }]
        reportDelay := some reportWait
        hostResult := some (orig args) }
  else
    { pushed := [], reportDelay := none, hostResult := some (orig args) }

/-- `onError` (index.ts lines 278-291): `orig` is the saved `console.error`. -/
def onError {R : Type} (fl : LoggerFields) (env : Env)
    (orig : List JsValue → R) (args : List JsValue) : InterceptOut R :=
  if fl.sendErrors then
    { pushed := [{ eventType := .error
                   name := "console.error"
                   message := .vstr (jsJoin args)
                   url := env.href
                   timestamp := env.now
                   eventMeta := some (.argsMeta args) }]
      reportDelay := some reportWait
      hostResult := some (orig args) }
  else
    { pushed := [], reportDelay := none, hostResult := some (orig args) }

/-- The non-`Error` fifth argument of `window.onerror`. -/
inductive WindowErrorArg where
  | strVal (s : String)
  | noVal
deriving DecidableEq, Repr

/-- The error argument of `window.onerror`: a structured `Error`, or not. -/
inductive WindowError where
  | errObj (e : JsError)
  | other (a : WindowErrorArg)
deriving DecidableEq, Repr

/-- `onWindowError` (index.ts lines 226-246), restricted to its effect on
the queue and the deferred trigger. -/
def onWindowError (fl : LoggerFields) (env : Env) (message : JsValue)
    (source : Option String) (lineno colno : Option Nat)
    (error : WindowError) : PushEffect :=
  match error with
  | .errObj e => captureError env e none
  | .other a =>
    if fl.debug || env.isProduction then
      if fl.sendExceptions then
        { pushed := [{ eventType := .exception
                       name :=
                         match a with
                         | WindowErrorArg.strVal s => "window.onerror (" ++ s ++ ")"
                         | WindowErrorArg.noVal => "window.onerror"
                       message :=
                         JsValue.vstr
                           (match message with | JsValue.vstr s => s | _ => "")
                       source := source
                       lineno := lineno
                       colno := colno
                       timestamp := env.now
                       url := env.href }]
          reportDelay := some reportWait }
      else { pushed := [], reportDelay := none }
    else { pushed := [], reportDelay := none }

/-- Outcome of the optional asynchronous session-metadata provider during
one flush: not configured, returns a value (`none` models a falsy result,
`some m` a metadata object), or throws / rejects. -/
inductive ProviderOutcome where
  | absent
  | returns (v : Option String)
  | throws
deriving DecidableEq, Repr

/-- The `included[0]` metadata resource of the wire document:
`{ type: "log-items-metadata", attributes: { appName, appCodeName,
platform, ...sessionMeta } }`.  `sessionMeta = none` means only the three
static attributes are present. -/
structure MetaResource where
  type : String
  appName : String
  appCodeName : String
  platform : String
  sessionMeta : Option String
deriving DecidableEq, Repr

/-- Building the metadata resource (index.ts lines 110-118).  The
`await this.getSessionMeta()` sits outside the try/catch of `flush`, so a
throwing provider aborts the whole document construction : `none`. -/
def buildIncluded (nav : Navigator) (p : ProviderOutcome) :
    Option MetaResource :=
  match p with
  | .throws => none
  | .absent =>
    some { type := "log-items-metadata", appName := nav.appName
           appCodeName := nav.appCodeName, platform := nav.platform
           sessionMeta := none }
  | .returns v =>
    some { type := "log-items-metadata", appName := nav.appName
           appCodeName := nav.appCodeName, platform := nav.platform
           sessionMeta := v }

/-- Spelling of an event kind used in the `type` field of a wire entry. -/
def eventTypeName : EventType → String
  | .exception => "exception"
  | .log => "log"
  | .error => "error"
  | .warn => "warn"
  | .securitypolicyviolation => "securitypolicyviolation"

/-- Attributes of one `data` entry of the wire document.  Every field the
source assigns is present; `message` is `some _` whenever the record had a
message value (the source always assigns the `message` variable). -/
structure WireAttributes where
  eventType : EventType
  name : String
  timestamp : Nat
  message : Option JsValue
  url : String
  lineno : Option Nat
  colno : Option Nat
  source : Option String
  event : Option Unit
  stack : Option String
  eventMeta : Option MetaVal
deriving DecidableEq, Repr

/-- One `data` entry of the wire document. -/
structure WireEntry where
  type : String
  attributes : WireAttributes
deriving DecidableEq, Repr

/-- The per-record message conversion (index.ts lines 120-125):
`let message = item.message; if (typeof item.message === "object") try {
message = JSON.stringify(item.message) } catch {}`.  When the stringify
throws, `message` keeps the original structured value. -/
def convertMessage (m : JsValue) : JsValue :=
  match m with
  | .vstr s => .vstr s
  | .vobj b form =>
    match tryStringify (.vobj b form) with
    | some s => .vstr s
    | none => .vobj b form

/-- One element of `jsonDocument.data` (index.ts lines 119-142). -/
def buildEntry (item : LogEventData) : WireEntry :=
  { type := eventTypeName item.eventType ++ "-log-items"
    attributes := { eventType := item.eventType
                    name := item.name
                    timestamp := item.timestamp
                    message := some (convertMessage item.message)
                    url := item.url
                    lineno := item.lineno
                    colno := item.colno
                    source := item.source
                    event := item.event
                    stack := item.stack
                    eventMeta := item.eventMeta } }

/-- The wire document of one flush. -/
structure JsonDocument where
  included : List MetaResource
  data : List WireEntry
deriving DecidableEq, Repr

/-- Outcome of the delivery call inside the try block: the injected
`send` / `window.fetch` resolves with an ok response, resolves with a
non-ok response (`throw response.statusText`), or throws/rejects itself. -/
inductive DeliveryOutcome where
  | ok
  | notOk
  | threw
deriving DecidableEq, Repr

/-- Whether the delivery outcome lands in the catch block. -/
def deliveryFailed : DeliveryOutcome → Bool
  | .ok => false
  | .notOk => true
  | .threw => true

/-- Observable result of one `flush()` call.
`queue` is the live queue right after the try/catch body (the requeue
applied, before the cooldown sleep); `attempted` is the document handed to
the delivery call when one was made; `raised` records a rejection of the
returned promise; `loggedError` records the `this.error.call(console, err)`
in the catch; `cooldownMs` is the `sleep(errorRetryTime)` duration when the
catch ran; `retryAfterCooldown` maps the queue content at cooldown end to
whether `this.throttledFlush()` is then requested. -/
structure FlushOut where
  queue : List LogEventData
  attempted : Option JsonDocument
  raised : Bool
  loggedError : Bool
  cooldownMs : Option Nat
  retryAfterCooldown : List LogEventData → Bool

/-- `flush()` (index.ts lines 106-165).  `queue` is the queue at entry;
`during` are the records appended to the live queue while the flush is
suspended at its awaits (the provider and the delivery call) — the drain
`splice(0, length)` removes exactly `queue`, and the failure requeue
`splice(0, 0, ...items)` puts the drained items back in front of `during`. -/
def flush (nav : Navigator) (p : ProviderOutcome) (d : DeliveryOutcome)
    (queue during : List LogEventData) : FlushOut :=
  if queue.isEmpty then
    { queue := during, attempted := none, raised := false
      loggedError := false, cooldownMs := none
      retryAfterCooldown := fun _ => false }
  else
    match buildIncluded nav p with
    | none =>
      { queue := during, attempted := none, raised := true
        loggedError := false, cooldownMs := none
        retryAfterCooldown := fun _ => false }
    | some res =>
      let doc : JsonDocument :=
        { included := [res], data := queue.map buildEntry }
      if deliveryFailed d then
        { queue := queue ++ during, attempted := some doc, raised := false
          loggedError := true, cooldownMs := some errorRetryTime
          retryAfterCooldown := fun q => !q.isEmpty }
      else
        { queue := during, attempted := some doc, raised := false
          loggedError := false, cooldownMs := none
          retryAfterCooldown := fun _ => false }

/-! Concrete fixtures used by witnesses and counterexamples. -/

def navSample : Navigator :=
  { appName := "Netscape", appCodeName := "Mozilla", platform := "Linux" }

def envSample : Env :=
  { href := "https://example.test/page", now := 1700000000000
    isProduction := true }

def recA : LogEventData :=
  { eventType := .error, name := "console.error", timestamp := 1
    message := .vstr "boom", url := "https://example.test/page" }

def recB : LogEventData :=
  { eventType := .log, name := "console.log", timestamp := 2
    message := .vstr "while in flight", url := "https://example.test/page" }

def recC : LogEventData :=
  { eventType := .warn, name := "console.warn", timestamp := 3
    message := .vstr "after failure", url := "https://example.test/page" }

def recD : LogEventData :=
  { eventType := .log, name := "console.log", timestamp := 4
    message := .vstr "during retry", url := "https://example.test/page" }

def recUnserializable : LogEventData :=
  { eventType := .log, name := "structured", timestamp := 5
    message := .vobj false "circular", url := "https://example.test/page" }

def cspSample : CspEvent :=
  { blockedURI := "https://evil.test/x.js"
    documentURI := "https://example.test/page"
    originalPolicy := "default-src self", referrer := ""
    timeStamp := 123, sourceFile := "https://example.test/app.js"
    violatedDirective := "script-src", effectiveDirective := "script-src"
    lineNumber := 10, columnNumber := 4, statusCode := 200 }

def errSample : JsError :=
  { name := "TypeError", message := "x is undefined"
    stack := some "TypeError: x is undefined\n    at f (app.js:1:1)" }

def optsDisableAll : Options :=
  { url := "https://collector.test/logs"
    sendErrors := some false, sendExceptions := some false
    sendWarnings := some false, sendInformation := some false
    sendCSPViolations := some false }

def flagsWarnOn : LoggerFields :=
  mkLogger { url := "https://collector.test/logs", sendWarnings := some true }

def origCount : List JsValue → Nat := fun args => args.length

/-- Helper: a non-nil list has `isEmpty = false`. -/
theorem isEmpty_false_of_ne_nil {α : Type} {l : List α} (h : l ≠ []) :
    l.isEmpty = false := by
  cases l with
  | nil => exact absurd rfl h
  | cons a t => rfl

/-- Claim C1: when the delivery attempt of a flush fails (non-ok response
or a throwing fetch/injected send), the whole drained batch is reinserted
at the queue front in its original order, ahead of the records appended
during the in-flight attempt, and the next successful flush delivers
those failed records first, followed by records submitted after the
failure. -/
theorem flush_failure_requeues_batch_in_front
    (nav : Navigator) (p p2 : ProviderOutcome) (d : DeliveryOutcome)
    (queue during post during2 : List LogEventData)
    (hq : queue ≠ []) (hd : deliveryFailed d = true)
    (hp : p ≠ ProviderOutcome.throws) (hp2 : p2 ≠ ProviderOutcome.throws) :
    (flush nav p d queue during).queue = queue ++ during ∧
    ((flush nav p2 DeliveryOutcome.ok (queue ++ during ++ post)
        during2).attempted).map JsonDocument.data =
      some (((queue ++ during ++ post).map buildEntry)) := by
  have hq1 : queue.isEmpty = false := isEmpty_false_of_ne_nil hq
  have hq2 : (queue ++ during ++ post).isEmpty = false := by
    cases queue with
    | nil => exact absurd rfl hq
    | cons a t => rfl
  constructor
  · cases p with
    | throws => exact absurd rfl hp
    | absent => simp [flush, hq1, buildIncluded, hd]
    | returns v => simp [flush, hq1, buildIncluded, hd]
  · cases p2 with
    | throws => exact absurd rfl hp2
    | absent => simp [flush, hq2, buildIncluded, deliveryFailed, hq]
    | returns v => simp [flush, hq2, buildIncluded, deliveryFailed, hq]

/-- Witness for C1 at concrete records. -/
theorem flush_failure_requeues_batch_in_front_witness :
    (flush navSample ProviderOutcome.absent DeliveryOutcome.notOk
        [recA] [recB]).queue = [recA] ++ [recB] ∧
    ((flush navSample (ProviderOutcome.returns none) DeliveryOutcome.ok
        ([recA] ++ [recB] ++ [recC]) [recD]).attempted).map JsonDocument.data =
      some ((([recA] ++ [recB] ++ [recC]).map buildEntry)) :=
  flush_failure_requeues_batch_in_front navSample ProviderOutcome.absent
    (ProviderOutcome.returns none) DeliveryOutcome.notOk
    [recA] [recB] [recC] [recD]
    (by decide) (by decide) (by decide) (by decide)

/-- Claim C2 counterexample: a throwing session-metadata provider DOES
prevent the delivery attempt — `await this.getSessionMeta()` sits outside
the try/catch, so the flush rejects with no document ever handed to the
delivery call. -/
theorem flush_provider_throw_blocks_delivery :
    (flush navSample ProviderOutcome.throws DeliveryOutcome.ok
        [recA] []).attempted = none ∧
    (flush navSample ProviderOutcome.throws DeliveryOutcome.ok
        [recA] []).raised = true :=
  ⟨rfl, rfl⟩

/-- Claim C2 (amended): when the provider returns nothing (a falsy
value), the batch is still delivered with the metadata resource holding
only the static environment attributes; but when the provider throws, the
flush rejects with no delivery attempt at all. -/
theorem flush_provider_failure_amended
    (nav : Navigator) (d : DeliveryOutcome)
    (queue during : List LogEventData) (hq : queue ≠ []) :
    (flush nav (ProviderOutcome.returns none) d queue during).attempted =
      some { included := [{ type := "log-items-metadata"
                            appName := nav.appName
                            appCodeName := nav.appCodeName
                            platform := nav.platform
                            sessionMeta := none }]
             data := queue.map buildEntry } ∧
    (flush nav ProviderOutcome.throws d queue during).attempted = none ∧
    (flush nav ProviderOutcome.throws d queue during).raised = true := by
  have hq1 : queue.isEmpty = false := isEmpty_false_of_ne_nil hq
  refine ⟨?_, ?_, ?_⟩
  · cases hd : deliveryFailed d <;>
      simp [flush, hq1, buildIncluded, hd]
  · simp [flush, hq1, buildIncluded]
  · simp [flush, hq1, buildIncluded]

/-- Witness for the amended C2 at concrete records. -/
theorem flush_provider_failure_amended_witness :
    (flush navSample (ProviderOutcome.returns none) DeliveryOutcome.ok
        [recA] [recB]).attempted =
      some { included := [{ type := "log-items-metadata"
                            appName := navSample.appName
                            appCodeName := navSample.appCodeName
                            platform := navSample.platform
                            sessionMeta := none }]
             data := [recA].map buildEntry } ∧
    (flush navSample ProviderOutcome.throws DeliveryOutcome.ok
        [recA] [recB]).attempted = none ∧
    (flush navSample ProviderOutcome.throws DeliveryOutcome.ok
        [recA] [recB]).raised = true :=
  flush_provider_failure_amended navSample DeliveryOutcome.ok [recA] [recB]
    (by decide)

/-- Claim C3 counterexample: under a batch-building failure (the
session-metadata provider throwing) the drained record is neither
delivered nor returned to the queue — it is dropped silently. -/
theorem flush_provider_throw_drops_drained_batch :
    (flush navSample ProviderOutcome.throws DeliveryOutcome.ok
        [recA] []).queue = [] ∧
    (flush navSample ProviderOutcome.throws DeliveryOutcome.ok
        [recA] []).attempted = none ∧
    recA ∉ (flush navSample ProviderOutcome.throws DeliveryOutcome.ok
        [recA] []).queue :=
  ⟨rfl, rfl, by decide⟩

/-- Claim C3 (amended): for every flush on a non-empty queue whose
session-metadata provider does not throw, delivery success acknowledges
exactly the drained batch and delivery failure returns all of it to the
queue; but a provider throw during batch building drops the entire
drained batch. -/
theorem flush_delivery_all_or_nothing
    (nav : Navigator) (p : ProviderOutcome) (d : DeliveryOutcome)
    (queue during : List LogEventData)
    (hq : queue ≠ []) (hp : p ≠ ProviderOutcome.throws) :
    (deliveryFailed d = false →
      (flush nav p d queue during).queue = during ∧
      ((flush nav p d queue during).attempted).map JsonDocument.data =
        some (queue.map buildEntry)) ∧
    (deliveryFailed d = true →
      (flush nav p d queue during).queue = queue ++ during) ∧
    (flush nav ProviderOutcome.throws d queue during).queue = during := by
  have hq1 : queue.isEmpty = false := isEmpty_false_of_ne_nil hq
  refine ⟨fun hd => ?_, fun hd => ?_, ?_⟩
  · cases p with
    | throws => exact absurd rfl hp
    | absent => simp [flush, hq1, buildIncluded, hd]
    | returns v => simp [flush, hq1, buildIncluded, hd]
  · cases p with
    | throws => exact absurd rfl hp
    | absent => simp [flush, hq1, buildIncluded, hd]
    | returns v => simp [flush, hq1, buildIncluded, hd]
  · simp [flush, hq1, buildIncluded]

/-- Witness for the amended C3 at concrete records. -/
theorem flush_delivery_all_or_nothing_witness :
    (deliveryFailed DeliveryOutcome.ok = false →
      (flush navSample ProviderOutcome.absent DeliveryOutcome.ok
          [recA] [recB]).queue = [recB] ∧
      ((flush navSample ProviderOutcome.absent DeliveryOutcome.ok
          [recA] [recB]).attempted).map JsonDocument.data =
        some ([recA].map buildEntry)) ∧
    (deliveryFailed DeliveryOutcome.ok = true →
      (flush navSample ProviderOutcome.absent DeliveryOutcome.ok
          [recA] [recB]).queue = [recA] ++ [recB]) ∧
    (flush navSample ProviderOutcome.throws DeliveryOutcome.ok
        [recA] [recB]).queue = [recB] :=
  flush_delivery_all_or_nothing navSample ProviderOutcome.absent
    DeliveryOutcome.ok [recA] [recB] (by decide) (by decide)

/-- Claim C4: evaluation of the constructor at the failing input
`{ sendErrors: false, sendExceptions: false, ... }`: because of
`sendErrors = sendErrors || true` (and likewise for `sendExceptions`),
the stored flags come out `true` and the corresponding interceptors are
still installed, while the warnings/information/CSP flags do honour a
passed `false`. -/
theorem mkLogger_cannot_disable_errors_or_exceptions :
    (mkLogger optsDisableAll).sendErrors = true ∧
    (mkLogger optsDisableAll).sendExceptions = true ∧
    (mkLogger optsDisableAll).interceptError = true ∧
    (mkLogger optsDisableAll).interceptWindowError = true ∧
    (mkLogger optsDisableAll).sendWarnings = false ∧
    (mkLogger optsDisableAll).sendInformation = false ∧
    (mkLogger optsDisableAll).interceptWarn = false ∧
    (mkLogger optsDisableAll).interceptLog = false ∧
    (mkLogger optsDisableAll).interceptCsp = false := by
  decide

/-- Claim C5 counterexample: a record whose structured message fails
serialization keeps the original structured value in the wire entry's
message field — the field is present, not absent. -/
theorem buildEntry_keeps_unserializable_message :
    (buildEntry recUnserializable).attributes.message ≠ none ∧
    (buildEntry recUnserializable).attributes.message =
      some (JsValue.vobj false "circular") :=
  ⟨by decide, rfl⟩

/-- Claim C5 (amended): a non-string structured message is converted to
text at batch build; if that serialization throws, the wire entry's
message field retains the original structured value unchanged (the
conversion is skipped, the field is not omitted), and the flush neither
raises nor aborts on its account. -/
theorem flush_message_conversion_amended
    (item : LogEventData) (form : String)
    (nav : Navigator) (p : ProviderOutcome) (d : DeliveryOutcome)
    (during : List LogEventData)
    (hm : item.message = JsValue.vobj false form)
    (hp : p ≠ ProviderOutcome.throws) :
    (buildEntry item).attributes.message =
      some (JsValue.vobj false form) ∧
    (flush nav p d [item] during).raised = false := by
  refine ⟨?_, ?_⟩
  · simp [buildEntry, convertMessage, hm, tryStringify]
  · cases p with
    | throws => exact absurd rfl hp
    | absent =>
      cases hd : deliveryFailed d <;>
        simp [flush, buildIncluded, hd]
    | returns v =>
      cases hd : deliveryFailed d <;>
        simp [flush, buildIncluded, hd]

/-- Witness for the amended C5 at a concrete unserializable record. -/
theorem flush_message_conversion_amended_witness :
    (buildEntry recUnserializable).attributes.message =
      some (JsValue.vobj false "circular") ∧
    (flush navSample ProviderOutcome.absent DeliveryOutcome.ok
        [recUnserializable] []).raised = false :=
  flush_message_conversion_amended recUnserializable "circular" navSample
    ProviderOutcome.absent DeliveryOutcome.ok [] (by decide) (by decide)

/-- Claim C6: evaluation at the failing input — a security-policy
violation.  Every other append path calls `report()` (scheduling the
throttled flush after `reportWait = 3000` ms), but `handleCspViolation`
pushes its record without any `report()` call, so no deferred trigger is
scheduled for it. -/
theorem handleCspViolation_schedules_no_report :
    (handleCspViolation envSample cspSample).pushed.length = 1 ∧
    (handleCspViolation envSample cspSample).reportDelay = none ∧
    (captureError envSample errSample none).reportDelay = some reportWait ∧
    (logInformation envSample "evt" "msg" "meta").reportDelay =
      some reportWait ∧
    (onLog flagsWarnOn envSample origCount
        [JsValue.vstr "hi"]).reportDelay = none ∧
    (onError flagsWarnOn envSample origCount
        [JsValue.vstr "hi"]).reportDelay = some reportWait ∧
    (onWindowError flagsWarnOn envSample (JsValue.vstr "m") none none none
        (WindowError.errObj errSample)).reportDelay = some reportWait ∧
    reportWait = 3000 := by
  refine ⟨rfl, rfl, rfl, rfl, ?_, ?_, rfl, rfl⟩
  · simp [onLog, flagsWarnOn, mkLogger, jsOr, truthy]
  · simp [onError, flagsWarnOn, mkLogger, jsOr, truthy]

/-- Claim C7: a failed delivery enters a fixed cooldown of
`errorRetryTime = 60000` ms, after which another throttled flush is
requested exactly when the queue is non-empty at that moment. -/
theorem flush_failure_cooldown_then_conditional_retry
    (nav : Navigator) (p : ProviderOutcome) (d : DeliveryOutcome)
    (queue during q2 : List LogEventData)
    (hq : queue ≠ []) (hp : p ≠ ProviderOutcome.throws)
    (hd : deliveryFailed d = true) :
    (flush nav p d queue during).cooldownMs = some errorRetryTime ∧
    errorRetryTime = 60000 ∧
    ((flush nav p d queue during).retryAfterCooldown q2 = true ↔
      q2 ≠ []) := by
  have hq1 : queue.isEmpty = false := isEmpty_false_of_ne_nil hq
  have hmain : (flush nav p d queue during).cooldownMs =
      some errorRetryTime ∧
      (flush nav p d queue during).retryAfterCooldown q2 = !q2.isEmpty := by
    cases p with
    | throws => exact absurd rfl hp
    | absent => simp [flush, hq1, buildIncluded, hd]
    | returns v => simp [flush, hq1, buildIncluded, hd]
  refine ⟨hmain.1, rfl, ?_⟩
  rw [hmain.2]
  cases q2 with
  | nil => simp
  | cons a t => simp

/-- Witness for C7 at concrete records. -/
theorem flush_failure_cooldown_then_conditional_retry_witness :
    (flush navSample ProviderOutcome.absent DeliveryOutcome.threw
        [recA] []).cooldownMs = some errorRetryTime ∧
    errorRetryTime = 60000 ∧
    ((flush navSample ProviderOutcome.absent DeliveryOutcome.threw
        [recA] []).retryAfterCooldown [recC] = true ↔ [recC] ≠ []) :=
  flush_failure_cooldown_then_conditional_retry navSample
    ProviderOutcome.absent DeliveryOutcome.threw [recA] [] [recC]
    (by decide) (by decide) (by decide)

/-- Claim C8: flushing an empty queue is a no-op — no document is handed
to the delivery call, nothing raises, no cooldown is entered, and the
queue stays empty. -/
theorem flush_empty_queue_noop
    (nav : Navigator) (p : ProviderOutcome) (d : DeliveryOutcome) :
    (flush nav p d [] []).attempted = none ∧
    (flush nav p d [] []).queue = [] ∧
    (flush nav p d [] []).raised = false ∧
    (flush nav p d [] []).cooldownMs = none :=
  ⟨rfl, rfl, rfl, rfl⟩

/-- Claim C9: `captureError` appends exactly one record whose kind is
`exception`, whose name, message and stack are copied from the error, and
whose `eventMeta` is the caller-supplied metadata; being a plain queue
push it has no failure path, and it schedules the deferred trigger. -/
theorem captureError_record_fields
    (env : Env) (e : JsError) (meta : Option String) :
    ∃ r : LogEventData,
      (captureError env e meta).pushed = [r] ∧
      r.eventType = EventType.exception ∧
      r.name = e.name ∧
      r.message = JsValue.vstr e.message ∧
      r.stack = e.stack ∧
      r.url = env.href ∧
      r.eventMeta = meta.map MetaVal.userMeta ∧
      (captureError env e meta).reportDelay = some reportWait :=
  ⟨_, rfl, rfl, rfl, rfl, rfl, rfl, rfl, rfl⟩

/-- Claim C10 counterexample: with warnings capture enabled, an
intercepted `console.warn` whose argument list contains a non-string
value on which `JSON.stringify` throws raises before the saved original
`console.warn` is ever applied — the host call is suppressed. -/
theorem onWarn_can_suppress_original :
    (onWarn flagsWarnOn envSample origCount
        [JsValue.vobj false "circular"]).hostResult = none ∧
    flagsWarnOn.sendWarnings = true :=
  ⟨rfl, rfl⟩

/-- Claim C10 (amended): `onLog` and `onError` always apply the saved
original console method to the same arguments and return its result,
whatever the flags; `onWarn` does so too unless warnings capture is
enabled and serializing some non-string argument throws, in which case
the exception escapes before the original is applied. -/
theorem console_interceptors_call_original
    {R : Type} (fl : LoggerFields) (env : Env)
    (orig : List JsValue → R) (args : List JsValue) :
    (onLog fl env orig args).hostResult = some (orig args) ∧
    (onError fl env orig args).hostResult = some (orig args) ∧
    (fl.sendWarnings = false ∨ warnMessage args ≠ none →
      (onWarn fl env orig args).hostResult = some (orig args)) := by
  refine ⟨?_, ?_, fun hw => ?_⟩
  · cases h : fl.sendInformation <;> simp [onLog, h]
  · cases h : fl.sendErrors <;> simp [onError, h]
  · cases h : fl.sendWarnings with
    | false => simp [onWarn, h]
    | true =>
      rcases hw with hw | hw
      · rw [h] at hw; simp at hw
      · obtain ⟨m, hm⟩ := Option.ne_none_iff_exists'.mp hw
        simp [onWarn, h, hm]

/-- Witness for the amended C10 at concrete arguments, discharging the
serializability hypothesis of the `onWarn` conjunct. -/
theorem console_interceptors_call_original_witness :
    (onLog flagsWarnOn envSample origCount
        [JsValue.vstr "a"]).hostResult =
      some (origCount [JsValue.vstr "a"]) ∧
    (onError flagsWarnOn envSample origCount
        [JsValue.vstr "a"]).hostResult =
      some (origCount [JsValue.vstr "a"]) ∧
    (onWarn flagsWarnOn envSample origCount
        [JsValue.vstr "a"]).hostResult =
      some (origCount [JsValue.vstr "a"]) :=
  ⟨(console_interceptors_call_original flagsWarnOn envSample origCount
      [JsValue.vstr "a"]).1,
   (console_interceptors_call_original flagsWarnOn envSample origCount
      [JsValue.vstr "a"]).2.1,
   (console_interceptors_call_original flagsWarnOn envSample origCount
      [JsValue.vstr "a"]).2.2 (Or.inr (by decide))⟩

end DomLogger
